import Mathlib

/-!
Verification of the generation-orchestrator logic of `src/app/(main)/layout.tsx`
(the `Home` client component and its helpers).

Modelling conventions of this shallow embedding:
- Text is `Str := List Char`; concrete strings are written `"...".data`.
- JavaScript numbers are embedded exactly: token counts and ceilings as `ℤ`,
  tunable sampling fields as `ℚ`.  The source stores `utilizationPercentage`
  as the string produced by `toFixed(2)`; that is display formatting, modelled
  here as the exact rational value it formats.
- Each `async` handler is embedded as a pure function from the pre-call
  component state (`Session`) and an environment describing the responses of
  the HTTP collaborators to the post-call state together with the list of
  HTTP requests it issued, in order.  A thrown / rejected step is one of the
  explicit failure constructors of the environment.
- The streaming read loop (`reader.read()` until done, decode, append,
  re-strip the whole buffer) is the fold `runStream`.
-/

/-- Text, embedded as a list of characters. -/
abbrev Str := List Char

/-- The backtick character (code 96), written by code to keep it out of the
source text of this file. -/
def tick : Char := Char.ofNat 96

/-- A Markdown fence: three backticks. -/
def fence : Str := [tick, tick, tick]

/-- Newline. -/
def nlc : Char := '\n'

/-- Language tag `typescript` of the fence-stripping pattern in
`removeCodeFormatting` (layout.tsx line 104). -/
def tagTS : Str := "typescript".data

/-- Language tag `javascript` of the fence-stripping pattern. -/
def tagJS : Str := "javascript".data

/-- Language tag `tsx` of the fence-stripping pattern. -/
def tagTSX : Str := "tsx".data

/-- Splits a string at its first triple-backtick, returning the part before
and the part after; `none` when no fence occurs.  This is the behaviour of
the lazy group `([\s\S]*?)` followed by the closing fence of the pattern. -/
def splitAtFence : Str → Option (Str × Str)
  | [] => none
  | c :: rest =>
    if fence.isPrefixOf (c :: rest) then some ([], rest.drop 2)
    else
      match splitAtFence rest with
      | some (pre, post) => some (c :: pre, post)
      | none => none

/-- The optional language group `(?:typescript|javascript|tsx)?` followed by
the mandatory newline of the pattern: returns the matched text (tag plus
newline).  The four alternatives are mutually exclusive on any input, so the
regex alternation order does not matter. -/
def fenceLang (s : Str) : Option Str :=
  if (tagTS ++ [nlc]).isPrefixOf s then some (tagTS ++ [nlc])
  else if (tagJS ++ [nlc]).isPrefixOf s then some (tagJS ++ [nlc])
  else if (tagTSX ++ [nlc]).isPrefixOf s then some (tagTSX ++ [nlc])
  else if [nlc].isPrefixOf s then some [nlc]
  else none

/-- Whether a triple-backtick occurs anywhere in `s`. -/
def containsFence : Str → Bool
  | [] => false
  | c :: rest => fence.isPrefixOf (c :: rest) || containsFence rest

/-- Global replacement of the fenced-block pattern by its captured group,
exactly as the JavaScript regex engine scans: at each position try to match
an opening fence, an optional language tag, a newline, a lazily captured
body and a closing fence; on success emit the body and continue after the
match; on failure emit one character and retry at the next position.
The fuel argument only bounds the recursion; `stripFences` supplies enough
fuel that it is never exhausted. -/
def stripFencesAux : Nat → Str → Str
  | _, [] => []
  | 0, s => s
  | fuel + 1, c :: rest =>
    if fence.isPrefixOf (c :: rest) then
      match fenceLang (rest.drop 2) with
      | some tag =>
        match splitAtFence ((rest.drop 2).drop tag.length) with
        | some (pre, post) => pre ++ stripFencesAux fuel post
        | none => c :: stripFencesAux fuel rest
      | none => c :: stripFencesAux fuel rest
    else c :: stripFencesAux fuel rest

/-- Replacement step of `removeCodeFormatting` (layout.tsx lines 102-106):
`code.replace(/(fenced block pattern)/g, "$1")`. -/
def stripFences (s : Str) : Str := stripFencesAux s.length s

/-- Code points treated as whitespace by JavaScript `String.prototype.trim`. -/
def jsWhitespace : List Nat :=
  [9, 10, 11, 12, 13, 32, 160, 5760, 8192, 8193, 8194, 8195, 8196, 8197,
   8198, 8199, 8200, 8201, 8202, 8232, 8233, 8239, 8287, 12288, 65279]

/-- Whether a character is JavaScript trim whitespace. -/
def isJsSpace (c : Char) : Bool := jsWhitespace.contains c.toNat

/-- JavaScript `String.prototype.trim`. -/
def jsTrim (s : Str) : Str :=
  ((s.dropWhile isJsSpace).reverse.dropWhile isJsSpace).reverse

/-- Function `removeCodeFormatting` (layout.tsx lines 102-106): strip the
fenced-block wrappers from the whole string, then trim. -/
def removeCodeFormatting (code : Str) : Str := jsTrim (stripFences code)

/-- State of the streaming read loop: the raw accumulated buffer
(`receivedData`) and the displayed value (`generatedCode`). -/
structure StreamState where
  buffer : Str
  display : Str
deriving DecidableEq, Repr

/-- One iteration of the read loop of `createApp` / `handleChatMessage`
(layout.tsx lines 401-408 and 261-268): append the decoded chunk to the
buffer and recompute the display by stripping the whole buffer. -/
def feedChunk (st : StreamState) (chunk : Str) : StreamState :=
  { buffer := st.buffer ++ chunk
    display := removeCodeFormatting (st.buffer ++ chunk) }

/-- The whole read loop: the buffer starts empty; the display starts at the
value `generatedCode` had before the loop (it is only written inside the
loop body, so it keeps that value when the stream has no chunks). -/
def runStream (init : Str) (chunks : List Str) : StreamState :=
  chunks.foldl feedChunk { buffer := [], display := init }

/-- Interface `TokenAnalytics` (layout.tsx lines 53-61): usage of a single
exchange.  `utilizationPercentage` is modelled as the exact rational that
the source formats with `toFixed(2)`. -/
structure TokenAnalytics where
  modelName : Str
  provider : Str
  promptTokens : ℤ
  responseTokens : ℤ
  totalTokens : ℤ
  maxTokens : ℤ
  utilizationPercentage : ℚ
deriving DecidableEq, Repr

/-- Interface `CumulativeTokenAnalytics` (layout.tsx lines 63-67). -/
structure CumulativeTokenAnalytics extends TokenAnalytics where
  cumulativePromptTokens : ℤ
  cumulativeResponseTokens : ℤ
  cumulativeTotalTokens : ℤ
deriving DecidableEq, Repr

/-- Interface `Analytics` (layout.tsx lines 69-77), the analytics record
embedded in a saved generation. -/
structure Analytics where
  modelName : Str
  provider : Str
  promptTokens : ℤ
  responseTokens : ℤ
  totalTokens : ℤ
  maxTokens : ℤ
  utilizationPercentage : ℚ
deriving DecidableEq, Repr

/-- The updater closure passed to `setTokenAnalytics` inside
`updateTokenAnalytics` (layout.tsx lines 174-196): merge an incoming
exchange into the previous cumulative record. -/
def mergeTokenAnalytics (prev : Option CumulativeTokenAnalytics)
    (newAnalytics : TokenAnalytics) : CumulativeTokenAnalytics :=
  match prev with
  | none =>
    { toTokenAnalytics :=
        { newAnalytics with
          utilizationPercentage :=
            (newAnalytics.totalTokens : ℚ) / (newAnalytics.maxTokens : ℚ) * 100 }
      cumulativePromptTokens := newAnalytics.promptTokens
      cumulativeResponseTokens := newAnalytics.responseTokens
      cumulativeTotalTokens := newAnalytics.totalTokens }
  | some prevAnalytics =>
    let cumulativePromptTokens :=
      prevAnalytics.cumulativePromptTokens + newAnalytics.promptTokens
    let cumulativeResponseTokens :=
      prevAnalytics.cumulativeResponseTokens + newAnalytics.responseTokens
    let cumulativeTotalTokens := cumulativePromptTokens + cumulativeResponseTokens
    { toTokenAnalytics :=
        { newAnalytics with
          utilizationPercentage :=
            (cumulativeTotalTokens : ℚ) / (newAnalytics.maxTokens : ℚ) * 100 }
      cumulativePromptTokens := cumulativePromptTokens
      cumulativeResponseTokens := cumulativeResponseTokens
      cumulativeTotalTokens := cumulativeTotalTokens }

/-- Interface `AISettings` (layout.tsx lines 93-100). -/
structure AISettings where
  temperature : ℚ
  maxTokens : ℤ
  topP : ℚ
  streamOutput : Bool
  frequencyPenalty : ℚ
  presencePenalty : ℚ
deriving DecidableEq, Repr

/-- Function `getDefaultSettings` (layout.tsx lines 108-124). -/
def getDefaultSettings (provider : Str) : AISettings :=
  { temperature := if provider = "deepseek".data then 0.0 else 0.7
    maxTokens :=
      if provider = "anthropic".data then 200000
      else if provider = "openai".data then 64000
      else if provider = "google".data then 1000000
      else if provider = "deepseek".data then 32768
      else 200000
    topP := 1
    streamOutput := true
    frequencyPenalty := 0
    presencePenalty := 0 }

/-- The `useEffect` body that runs whenever `currentProvider` changes
(layout.tsx lines 203-220): a record update of the previous settings that
rewrites only `temperature` and `maxTokens`. -/
def providerChangeEffect (currentProvider : Str) (prev : AISettings) : AISettings :=
  { prev with
    temperature := if currentProvider = "deepseek".data then 0.0 else prev.temperature
    maxTokens :=
      if currentProvider = "anthropic".data then 200000
      else if currentProvider = "openai".data then 64000
      else if currentProvider = "google".data then 1000000
      else if currentProvider = "deepseek".data then 32768
      else prev.maxTokens }

/-- The `Status` union type (layout.tsx lines 44-51). -/
inductive Status where
  | initial
  | creating
  | created
  | updating
  | updated
  | refining
  | brainstorming
deriving DecidableEq, Repr

/-- A `{role, content}` conversation message. -/
structure ChatMsg where
  role : Str
  content : Str
deriving DecidableEq, Repr

/-- Role string `"user"`. -/
def roleUser : Str := "user".data

/-- Role string `"system"`. -/
def roleSystem : Str := "system".data

/-- The system-message label `"Previous code: "` of `handleChatMessage`
(layout.tsx line 247). -/
def prevCodeLabel : Str := "Previous code: ".data

/-- The component state of `Home` (layout.tsx lines 140-163): one field per
`useState` hook that the orchestrator logic reads or writes. -/
structure Session where
  status : Status
  prompt : Str
  generatedCode : Str
  tokenAnalytics : Option CumulativeTokenAnalytics
  showAnalytics : Bool
  runtimeError : Option Str
  model : Str
  messages : List ChatMsg
  currentGeneratedAppId : Option Str
  chatVisible : Bool
  refinementMessages : List ChatMsg
  aiSettings : AISettings
deriving DecidableEq, Repr

/-- Function `updateTokenAnalytics` (layout.tsx lines 173-198): merge the
incoming analytics into the cumulative state and reveal the analytics
panel. -/
def updateTokenAnalytics (s : Session) (newAnalytics : TokenAnalytics) : Session :=
  { s with
    tokenAnalytics := some (mergeTokenAnalytics s.tokenAnalytics newAnalytics)
    showAnalytics := true }

/-- The `generatedApp` record embedded in a saved generation
(layout.tsx lines 84-90). -/
structure GeneratedApp where
  id : Str
  code : Str
  model : Str
  prompt : Str
  analytics : Option Analytics
deriving DecidableEq, Repr

/-- Interface `SavedGeneration` (layout.tsx lines 79-91). -/
structure SavedGeneration where
  id : Str
  title : Str
  description : Option Str
  createdAt : Str
  generatedApp : GeneratedApp
deriving DecidableEq, Repr

/-- One HTTP request issued by the orchestrator, with the body fields the
source serialises (layout.tsx lines 241-252, 302-309, 338-346, 384-392,
411-419, 429-438). -/
inductive ApiRequest where
  | generateCode (model : Str) (messages : List ChatMsg) (settings : AISettings)
  | generateIdea (model : Str) (settings : AISettings)
  | refinePromptCall (model : Str) (prompt : Str) (settings : AISettings)
  | saveGeneratedApp (model : Str) (prompt : Str) (code : Str)
  | tokenAnalyticsCall (model : Str) (prompt : Str) (generatedCode : Str)
      (generatedAppId : Str)
deriving DecidableEq, Repr

/-- Outcome of one streaming fetch.  `notOk` covers a rejected fetch and a
response with a failing status or missing body (both reach the catch block
before any read); `midFail chunks` covers a stream that delivered `chunks`
and then threw from `reader.read()`; `ok chunks` is a stream that delivered
`chunks` and finished. -/
inductive StreamOutcome where
  | notOk
  | midFail (chunks : List Str)
  | ok (chunks : List Str)
deriving DecidableEq, Repr

/-- Collaborator responses available to one `createApp` run: the streaming
code-generation call, the persistence call (`none` is a non-OK response,
`some id` a parsed identifier), and the analytics call (`none` is a non-OK
response, silently ignored by the source). -/
structure CreateEnv where
  gen : StreamOutcome
  save : Option Str
  analytics : Option TokenAnalytics
deriving Repr

/-- Collaborator response available to one prompt-assist run. -/
structure AssistEnv where
  resp : StreamOutcome
deriving Repr

/-- Collaborator responses available to one `handleChatMessage` run. -/
structure ChatEnv where
  gen : StreamOutcome
  analytics : Option TokenAnalytics
deriving Repr

/-- Function `createApp` (layout.tsx lines 370-452), as a pure transition:
guard, reset, seed the conversation, stream the generated code, persist the
raw buffer, request analytics, and commit `created`; any thrown step lands
in the catch block, which only logs and sets the status back to
`initial`. -/
def createApp (env : CreateEnv) (s : Session) : Session × List ApiRequest :=
  if s.prompt = [] ∨ s.status ≠ Status.initial then (s, [])
  else
    let s1 := { s with
      status := Status.creating
      generatedCode := []
      showAnalytics := false
      tokenAnalytics := none
      chatVisible := false
      refinementMessages := []
      messages := [{ role := roleUser, content := s.prompt }] }
    let req := ApiRequest.generateCode s.model
      [{ role := roleUser, content := s.prompt }] s.aiSettings
    match env.gen with
    | StreamOutcome.notOk => ({ s1 with status := Status.initial }, [req])
    | StreamOutcome.midFail chunks =>
      let st := runStream s1.generatedCode chunks
      ({ s1 with generatedCode := st.display, status := Status.initial }, [req])
    | StreamOutcome.ok chunks =>
      let st := runStream s1.generatedCode chunks
      let s2 := { s1 with generatedCode := st.display }
      let saveReq := ApiRequest.saveGeneratedApp s.model s.prompt st.buffer
      match env.save with
      | none => ({ s2 with status := Status.initial }, [req, saveReq])
      | some appId =>
        let s3 := { s2 with currentGeneratedAppId := some appId }
        let analyticsReq := ApiRequest.tokenAnalyticsCall s.model s.prompt st.buffer appId
        let s4 :=
          match env.analytics with
          | none => s3
          | some a => updateTokenAnalytics s3 a
        ({ s4 with status := Status.created, chatVisible := true },
         [req, saveReq, analyticsReq])

/-- Function `generateAppIdea` (layout.tsx lines 297-331): stream an idea,
trim it, and replace the prompt; the `finally` block always restores
`initial`. -/
def generateAppIdea (env : AssistEnv) (s : Session) : Session × List ApiRequest :=
  if s.status ≠ Status.initial then (s, [])
  else
    let req := ApiRequest.generateIdea s.model s.aiSettings
    match env.resp with
    | StreamOutcome.notOk => ({ s with status := Status.initial }, [req])
    | StreamOutcome.midFail _ => ({ s with status := Status.initial }, [req])
    | StreamOutcome.ok chunks =>
      ({ s with prompt := jsTrim chunks.flatten, status := Status.initial }, [req])

/-- Function `refinePrompt` (layout.tsx lines 333-368): like the idea
generator, additionally guarded by a non-empty prompt and sending the
current prompt. -/
def refinePrompt (env : AssistEnv) (s : Session) : Session × List ApiRequest :=
  if s.prompt = [] ∨ s.status ≠ Status.initial then (s, [])
  else
    let req := ApiRequest.refinePromptCall s.model s.prompt s.aiSettings
    match env.resp with
    | StreamOutcome.notOk => ({ s with status := Status.initial }, [req])
    | StreamOutcome.midFail _ => ({ s with status := Status.initial }, [req])
    | StreamOutcome.ok chunks =>
      ({ s with prompt := jsTrim chunks.flatten, status := Status.initial }, [req])

/-- Function `handleChatMessage` (layout.tsx lines 231-295): guard, build
the refinement message list locally, stream the updated code, commit the
list and `created`, then (only when an app identifier exists) request
analytics; the catch block restores `created` without committing the
list. -/
def handleChatMessage (env : ChatEnv) (message : Str) (s : Session) :
    Session × List ApiRequest :=
  if s.generatedCode = [] ∨ s.status ≠ Status.created then (s, [])
  else
    let updatedMessages := s.refinementMessages ++ [{ role := roleUser, content := message }]
    let req := ApiRequest.generateCode s.model
      ({ role := roleSystem, content := prevCodeLabel ++ s.generatedCode } :: updatedMessages)
      s.aiSettings
    match env.gen with
    | StreamOutcome.notOk => ({ s with status := Status.created }, [req])
    | StreamOutcome.midFail chunks =>
      let st := runStream s.generatedCode chunks
      ({ s with generatedCode := st.display, status := Status.created }, [req])
    | StreamOutcome.ok chunks =>
      let st := runStream s.generatedCode chunks
      let s2 := { s with
        generatedCode := st.display
        refinementMessages := updatedMessages
        status := Status.created }
      match s.currentGeneratedAppId with
      | none => (s2, [req])
      | some appId =>
        let analyticsReq := ApiRequest.tokenAnalyticsCall s.model message st.buffer appId
        match env.analytics with
        | none => (s2, [req, analyticsReq])
        | some a => (updateTokenAnalytics s2 a, [req, analyticsReq])

/-- Function `handleLoadGeneration` (layout.tsx lines 454-463).  The source
line `setAISettings(aiSettings)` stores the settings value already held, so
the settings field is unchanged. -/
def handleLoadGeneration (generation : SavedGeneration) (s : Session) : Session :=
  { s with
    generatedCode := generation.generatedApp.code
    prompt := generation.generatedApp.prompt
    model := generation.generatedApp.model
    aiSettings := s.aiSettings
    currentGeneratedAppId := some generation.generatedApp.id
    status := Status.created
    chatVisible := true }

/-- A list is a Boolean prefix of itself followed by anything. -/
theorem isPrefixOf_append_self (l t : Str) : l.isPrefixOf (l ++ t) = true := by
  induction l with
  | nil => simp [List.isPrefixOf]
  | cons a as ih => simp [List.isPrefixOf, ih]

/-- Splitting a fence-free string followed by a fence succeeds, and the two
parts reassemble to the original string; the part after the closing fence is
itself fence-free and no longer than the original. -/
theorem splitAtFence_closing (inner : Str) (h : containsFence inner = false) :
    ∃ pre post, splitAtFence (inner ++ fence) = some (pre, post) ∧
      pre ++ post = inner ∧ containsFence post = false ∧ post.length ≤ inner.length := by
  induction inner with
  | nil =>
    refine ⟨[], [], ?_, rfl, rfl, Nat.le_refl 0⟩
    decide
  | cons a tail ih =>
    rw [containsFence] at h
    rcases Bool.or_eq_false_iff.mp h with ⟨hhead, htail⟩
    rcases ih htail with ⟨pre, post, hsplit, happ, hpostfree, hlen⟩
    by_cases hb : fence.isPrefixOf (a :: tail ++ fence) = true
    · match tail with
      | [] =>
        have ha : a = tick := by
          have := by
            simpa [fence, List.isPrefixOf, Bool.and_eq_true, beq_iff_eq] using hb
          exact this.symm
        subst ha
        exact ⟨[], [tick], by decide, rfl, by decide, by decide⟩
      | [b] =>
        have hab : tick = a ∧ tick = b := by
          simpa [fence, List.isPrefixOf, Bool.and_eq_true, beq_iff_eq] using hb
        rcases hab with ⟨ha, hbeq⟩
        rw [← ha, ← hbeq]
        exact ⟨[], [tick, tick], by decide, rfl, by decide, by decide⟩
      | b :: c :: ts =>
        exfalso
        have habc : tick = a ∧ tick = b ∧ tick = c := by
          simpa [fence, List.isPrefixOf, Bool.and_eq_true, beq_iff_eq] using hb
        rcases habc with ⟨ha, hbeq, hc⟩
        rw [← ha, ← hbeq, ← hc] at hhead
        simp [fence, List.isPrefixOf] at hhead
    · refine ⟨a :: pre, post, ?_, by simpa using happ, hpostfree,
        Nat.le_trans hlen (Nat.le_succ _)⟩
      simp only [Bool.not_eq_true] at hb
      rw [List.cons_append] at hb ⊢
      rw [splitAtFence, hb, hsplit]
      simp

/-- A fence-free string is untouched by the replacement scan, for any
sufficient fuel. -/
theorem stripFencesAux_id (s : Str) (f : Nat) (h : containsFence s = false)
    (hf : s.length ≤ f) : stripFencesAux f s = s := by
  induction s generalizing f with
  | nil => cases f <;> rfl
  | cons c rest ih =>
    rw [containsFence] at h
    rcases Bool.or_eq_false_iff.mp h with ⟨hhead, htail⟩
    match f with
    | 0 => exact absurd hf (by simp)
    | g + 1 =>
      rw [stripFencesAux, hhead]
      rw [ih g htail (Nat.le_of_succ_le_succ hf)]
      simp

/-- On input formed of one of the recognised language tags (or no tag)
followed by a newline, the optional-group matcher consumes exactly the tag
and the newline. -/
theorem fenceLang_at (lang s : Str)
    (hl : lang = tagTS ∨ lang = tagJS ∨ lang = tagTSX ∨ lang = []) :
    fenceLang (lang ++ nlc :: s) = some (lang ++ [nlc]) := by
  have key : ∀ t : Str, t ++ nlc :: s = (t ++ [nlc]) ++ s := by simp
  rcases hl with h | h | h | h <;> subst h
  · rw [fenceLang, key tagTS, isPrefixOf_append_self]
    simp
  · have h1 : (tagTS ++ [nlc]).isPrefixOf (tagJS ++ nlc :: s) = false := rfl
    rw [fenceLang, h1, key tagJS, isPrefixOf_append_self]
    simp
  · have h1 : (tagTS ++ [nlc]).isPrefixOf (tagTSX ++ nlc :: s) = false := rfl
    have h2 : (tagJS ++ [nlc]).isPrefixOf (tagTSX ++ nlc :: s) = false := rfl
    rw [fenceLang, h1, h2, key tagTSX, isPrefixOf_append_self]
    simp
  · have h1 : (tagTS ++ [nlc]).isPrefixOf ([] ++ nlc :: s) = false := rfl
    have h2 : (tagJS ++ [nlc]).isPrefixOf ([] ++ nlc :: s) = false := rfl
    have h3 : (tagTSX ++ [nlc]).isPrefixOf ([] ++ nlc :: s) = false := rfl
    have h4 : [nlc].isPrefixOf ([] ++ nlc :: s) = true := by
      simp [List.isPrefixOf]
    rw [fenceLang, h1, h2, h3, h4]
    simp

/-- Replacement scan on a string that is exactly one well-formed fenced
block (tagged `typescript`, `javascript`, `tsx`, or untagged) with a
fence-free body: the result is exactly the body.  Holds for any fuel
exceeding the body length. -/
theorem stripFencesAux_exact (f : Nat) (lang inner : Str)
    (hl : lang = tagTS ∨ lang = tagJS ∨ lang = tagTSX ∨ lang = [])
    (hi : containsFence inner = false)
    (hf : inner.length < f) :
    stripFencesAux f (fence ++ lang ++ nlc :: inner ++ fence) = inner := by
  match f with
  | 0 => exact absurd hf (Nat.not_lt_zero _)
  | g + 1 =>
    have hshape : fence ++ lang ++ nlc :: inner ++ fence
        = tick :: (tick :: tick :: (lang ++ nlc :: (inner ++ fence))) := by
      simp [fence]
    rw [hshape, stripFencesAux]
    have hcond : fence.isPrefixOf
        (tick :: tick :: tick :: (lang ++ nlc :: (inner ++ fence))) = true := by
      simp [fence, List.isPrefixOf]
    rw [hcond]
    have hbody : (lang ++ nlc :: (inner ++ fence)).drop (lang ++ [nlc]).length
        = inner ++ fence := by
      have hsplitform : lang ++ nlc :: (inner ++ fence)
          = (lang ++ [nlc]) ++ (inner ++ fence) := by
        simp
      rw [hsplitform, List.drop_left]
    rcases splitAtFence_closing inner hi with ⟨pre, post, hsplit, happ, hfree, hlen⟩
    simp only [List.drop_succ_cons, List.drop_zero,
      fenceLang_at lang (inner ++ fence) hl, hbody, hsplit, if_true]
    rw [stripFencesAux_id post g hfree (Nat.le_of_lt_succ (Nat.lt_of_le_of_lt hlen hf))]
    exact happ

/-- The fence-replacement step of `removeCodeFormatting` on a string that is
exactly one well-formed fenced block with fence-free body yields the body. -/
theorem stripFences_exact (lang inner : Str)
    (hl : lang = tagTS ∨ lang = tagJS ∨ lang = tagTSX ∨ lang = [])
    (hi : containsFence inner = false) :
    stripFences (fence ++ lang ++ nlc :: inner ++ fence) = inner := by
  unfold stripFences
  apply stripFencesAux_exact _ _ _ hl hi
  simp [fence]
  omega

/-- Unrolled form of the streaming fold: a non-empty chunk list leaves the
concatenation of all chunks in the buffer and the stripped concatenation in
the display, whatever the starting values. -/
theorem foldl_feedChunk (chunks : List Str) (b d : Str) (hne : chunks ≠ []) :
    chunks.foldl feedChunk { buffer := b, display := d } =
      { buffer := b ++ chunks.flatten
        display := removeCodeFormatting (b ++ chunks.flatten) } := by
  induction chunks generalizing b d with
  | nil => exact absurd rfl hne
  | cons c cs ih =>
    rw [List.foldl_cons]
    by_cases h : cs = []
    · subst h
      simp [feedChunk]
    · rw [show feedChunk { buffer := b, display := d } c
          = { buffer := b ++ c, display := removeCodeFormatting (b ++ c) } from rfl]
      rw [ih (b ++ c) (removeCodeFormatting (b ++ c)) h]
      simp

/-- The read loop of the creation pipeline (empty initial buffer and empty
initial display): final buffer is the chunk concatenation, final display its
fence-stripped trim — also when the stream has no chunks. -/
theorem runStream_nil_init (chunks : List Str) :
    runStream [] chunks =
      { buffer := chunks.flatten
        display := removeCodeFormatting chunks.flatten } := by
  by_cases h : chunks = []
  · subst h
    decide
  · exact foldl_feedChunk chunks [] [] h

/-- The read loop with an arbitrary previous display: a non-empty stream
overwrites it with the stripped concatenation. -/
theorem runStream_display (init : Str) (chunks : List Str) (hne : chunks ≠ []) :
    runStream init chunks =
      { buffer := chunks.flatten
        display := removeCodeFormatting chunks.flatten } := by
  unfold runStream
  rw [foldl_feedChunk chunks [] init hne]
  simp

/-- Default settings of the openai provider, used by the concrete states
below. -/
def settingsEx : AISettings := getDefaultSettings "openai".data

/-- A concrete fresh session at status `initial` with a non-empty prompt and
an identifier left over from an earlier successful run. -/
def sessionInitial : Session :=
  { status := Status.initial
    prompt := "p".data
    generatedCode := []
    tokenAnalytics := none
    showAnalytics := false
    runtimeError := none
    model := "m".data
    messages := []
    currentGeneratedAppId := some "id0".data
    chatVisible := false
    refinementMessages := []
    aiSettings := settingsEx }

/-- A concrete exchange whose reported total (5) differs from the sum of its
prompt and response counts (1 + 1). -/
def analyticsA : TokenAnalytics :=
  { modelName := "m".data
    provider := "openai".data
    promptTokens := 1
    responseTokens := 1
    totalTokens := 5
    maxTokens := 100
    utilizationPercentage := 5 }

/-- A concrete second exchange, also with an inconsistent total (4 vs 2 + 2). -/
def analyticsB : TokenAnalytics :=
  { analyticsA with
    promptTokens := 2
    responseTokens := 2
    totalTokens := 4
    utilizationPercentage := 4 }

/-- A concrete exchange whose total equals prompt plus response (3 + 4 = 7). -/
def analyticsC : TokenAnalytics :=
  { analyticsA with
    promptTokens := 3
    responseTokens := 4
    totalTokens := 7
    utilizationPercentage := 7 }

/-- A concrete second consistent exchange (5 + 6 = 11). -/
def analyticsD : TokenAnalytics :=
  { analyticsA with
    promptTokens := 5
    responseTokens := 6
    totalTokens := 11
    utilizationPercentage := 11 }

/-- C1, counterexample.  The claim asserts that for all records A and B with
integer counts, merging A into an empty cumulative record and then merging B
yields cumulative total A.totalTokens + B.totalTokens.  The second merge
recomputes the total from the cumulative prompt and response components
(layout.tsx line 187), so the claim fails whenever a record's reported total
differs from prompt + response: with A = (1, 1, total 5) and
B = (2, 2, total 4), the cumulative total is (1+2)+(1+2) = 6 while
A.totalTokens + B.totalTokens = 9. -/
theorem c1_counterexample :
    (mergeTokenAnalytics (some (mergeTokenAnalytics none analyticsA))
        analyticsB).cumulativeTotalTokens
      ≠ analyticsA.totalTokens + analyticsB.totalTokens := by
  decide

/-- C1, amended.  For all records A and B whose token counts are integers
and whose reported totals are consistent (totalTokens = promptTokens +
responseTokens), merging A into an empty cumulative record and then merging
B yields a cumulative total exactly A.totalTokens + B.totalTokens, with
integer-exact arithmetic. -/
theorem c1_merge_total_exact (A B : TokenAnalytics)
    (hA : A.totalTokens = A.promptTokens + A.responseTokens)
    (hB : B.totalTokens = B.promptTokens + B.responseTokens) :
    (mergeTokenAnalytics (some (mergeTokenAnalytics none A))
        B).cumulativeTotalTokens
      = A.totalTokens + B.totalTokens := by
  simp only [mergeTokenAnalytics]
  rw [hA, hB]
  ring

/-- C1, witness: the amended theorem applied to the concrete consistent
records C (3+4=7) and D (5+6=11) gives cumulative total 18. -/
theorem c1_witness :
    (mergeTokenAnalytics (some (mergeTokenAnalytics none analyticsC))
        analyticsD).cumulativeTotalTokens
      = analyticsC.totalTokens + analyticsD.totalTokens :=
  c1_merge_total_exact analyticsC analyticsD (by decide) (by decide)

/-- C2, counterexample.  The claim asserts the final displayed value equals
the trimmed inner content for a fenced block tagged with any language name,
for any placement inside the concatenation.  The pattern only recognises
the tags typescript, javascript and tsx (layout.tsx line 104), so a
python-tagged block is left intact; and the replacement keeps text around
the block, so a block embedded in surrounding text does not display as its
inner content alone. -/
theorem c2_counterexample :
    (runStream [] ["```python\nprint(1)\n```".data]).display
        ≠ jsTrim "print(1)\n".data ∧
    (runStream [] ["see ".data, "```tsx\nX\n```".data]).display
        ≠ jsTrim "X\n".data := by
  decide

/-- C2, amended.  For every non-empty sequence of chunks whose concatenation
is exactly one well-formed fenced block — an opening fence, a tag that is
typescript, javascript, tsx or absent, a newline, a body containing no
triple-backtick, and a closing fence — the streaming accumulator's final
displayed value is the body trimmed of leading and trailing whitespace,
regardless of how the text is split across chunks (and of the display value
that preceded the stream). -/
theorem c2_fenced_stream (init : Str) (chunks : List Str) (lang inner : Str)
    (hl : lang = tagTS ∨ lang = tagJS ∨ lang = tagTSX ∨ lang = [])
    (hi : containsFence inner = false)
    (hc : chunks.flatten = fence ++ lang ++ nlc :: inner ++ fence)
    (hne : chunks ≠ []) :
    (runStream init chunks).display = jsTrim inner := by
  rw [runStream_display init chunks hne]
  show removeCodeFormatting chunks.flatten = jsTrim inner
  rw [hc]
  unfold removeCodeFormatting
  rw [stripFences_exact lang inner hl hi]

/-- C2, witness: a tsx-tagged block split across two chunks displays as its
trimmed body. -/
theorem c2_witness :
    (runStream [] ["```tsx\n".data, "let x = 1\n```".data]).display
      = jsTrim "let x = 1\n".data :=
  c2_fenced_stream [] ["```tsx\n".data, "let x = 1\n```".data] tagTSX
    "let x = 1\n".data (Or.inr (Or.inr (Or.inl rfl))) (by decide) (by decide)
    (by decide)

/-- C3, counterexample.  The claim asserts that switching from the deepseek
provider to any other provider sets the temperature to the new provider's
default 0.7.  The effect (layout.tsx line 207) writes the previous
temperature unless the new provider is deepseek, so switching deepseek to
openai keeps 0.0 instead of the openai default 0.7. -/
theorem c3_counterexample :
    (providerChangeEffect "openai".data
        (getDefaultSettings "deepseek".data)).temperature
      ≠ (getDefaultSettings "openai".data).temperature := by
  have h1 : (providerChangeEffect "openai".data
      (getDefaultSettings "deepseek".data)).temperature = (0.0 : ℚ) := rfl
  have h2 : (getDefaultSettings "openai".data).temperature = (0.7 : ℚ) := rfl
  rw [h1, h2]
  norm_num

/-- C3, amended.  Whenever the selected model's provider changes to one of
the four named providers, the effect overwrites maxTokens with that
provider's default ceiling, while the temperature is overwritten (with 0.0)
only when the new provider is deepseek and is otherwise preserved — so a
user-edited temperature survives a provider change to any non-deepseek
provider; topP, streaming and the penalty fields are always preserved. -/
theorem c3_provider_change (prev : AISettings) (p : Str)
    (hp : p = "anthropic".data ∨ p = "openai".data ∨ p = "google".data ∨
      p = "deepseek".data) :
    (providerChangeEffect p prev).maxTokens = (getDefaultSettings p).maxTokens ∧
    (providerChangeEffect p prev).temperature =
      (if p = "deepseek".data then (getDefaultSettings p).temperature
       else prev.temperature) ∧
    (providerChangeEffect p prev).topP = prev.topP ∧
    (providerChangeEffect p prev).streamOutput = prev.streamOutput ∧
    (providerChangeEffect p prev).frequencyPenalty = prev.frequencyPenalty ∧
    (providerChangeEffect p prev).presencePenalty = prev.presencePenalty := by
  rcases hp with h | h | h | h <;> subst h <;>
    exact ⟨rfl, rfl, rfl, rfl, rfl, rfl⟩

/-- C3, witness: the amended theorem at a switch from openai defaults to the
google provider: the ceiling becomes the google default and the temperature
is preserved. -/
theorem c3_witness :
    (providerChangeEffect "google".data
        (getDefaultSettings "openai".data)).maxTokens
      = (getDefaultSettings "google".data).maxTokens ∧
    (providerChangeEffect "google".data
        (getDefaultSettings "openai".data)).temperature =
      (if "google".data = "deepseek".data
       then (getDefaultSettings "google".data).temperature
       else (getDefaultSettings "openai".data).temperature) ∧
    (providerChangeEffect "google".data
        (getDefaultSettings "openai".data)).topP
      = (getDefaultSettings "openai".data).topP ∧
    (providerChangeEffect "google".data
        (getDefaultSettings "openai".data)).streamOutput
      = (getDefaultSettings "openai".data).streamOutput ∧
    (providerChangeEffect "google".data
        (getDefaultSettings "openai".data)).frequencyPenalty
      = (getDefaultSettings "openai".data).frequencyPenalty ∧
    (providerChangeEffect "google".data
        (getDefaultSettings "openai".data)).presencePenalty
      = (getDefaultSettings "openai".data).presencePenalty :=
  c3_provider_change (getDefaultSettings "openai".data) "google".data
    (Or.inr (Or.inr (Or.inl rfl)))

/-- A concrete environment for a fresh creation: the stream delivers one
fenced chunk, persistence succeeds with identifier id1, analytics responds
non-OK. -/
def createEnvRawFence : CreateEnv :=
  { gen := StreamOutcome.ok ["```tsx\nX\n```".data]
    save := some "id1".data
    analytics := none }

/-- C4, counterexample.  The claim asserts the persisted code equals the
fence-stripped artifact.  The persistence request of `createApp` sends
`receivedData`, the raw stream buffer (layout.tsx line 417), while the
display holds the stripped value: on a stream delivering one fenced chunk
the persisted code keeps its fences and differs from the displayed,
stripped code. -/
theorem c4_counterexample :
    (createApp createEnvRawFence sessionInitial).2
      = [ApiRequest.generateCode "m".data
           [{ role := roleUser, content := "p".data }] settingsEx,
         ApiRequest.saveGeneratedApp "m".data "p".data "```tsx\nX\n```".data,
         ApiRequest.tokenAnalyticsCall "m".data "p".data "```tsx\nX\n```".data
           "id1".data] ∧
    (createApp createEnvRawFence sessionInitial).1.generatedCode = "X".data ∧
    "```tsx\nX\n```".data ≠ "X".data :=
  ⟨rfl, rfl, by decide⟩

/-- C4, amended.  In a fresh-creation run whose stream completes, the code
sent to the generated-app store is the raw accumulated stream buffer (the
chunk concatenation, fences included), while the displayed code is the
fence-stripped artifact; the two differ whenever stripping changes the
buffer. -/
theorem c4_persisted_raw (s : Session) (env : CreateEnv) (chunks : List Str)
    (hs : s.status = Status.initial) (hp : s.prompt ≠ [])
    (hg : env.gen = StreamOutcome.ok chunks) :
    ApiRequest.saveGeneratedApp s.model s.prompt chunks.flatten
        ∈ (createApp env s).2 ∧
    (createApp env s).1.generatedCode = removeCodeFormatting chunks.flatten := by
  have hguard : ¬ (s.prompt = [] ∨ s.status ≠ Status.initial) := by
    push_neg
    exact ⟨hp, hs⟩
  simp only [createApp, if_neg hguard, hg, runStream_nil_init]
  rcases env.save with _ | appId
  · simp
  · rcases env.analytics with _ | a <;> simp [updateTokenAnalytics]

/-- C4, witness: the amended theorem at the concrete fenced run: the save
request carries the raw fenced buffer and the display is the stripped
buffer. -/
theorem c4_witness :
    ApiRequest.saveGeneratedApp sessionInitial.model sessionInitial.prompt
        (["```tsx\nX\n```".data] : List Str).flatten
        ∈ (createApp createEnvRawFence sessionInitial).2 ∧
    (createApp createEnvRawFence sessionInitial).1.generatedCode
      = removeCodeFormatting (["```tsx\nX\n```".data] : List Str).flatten :=
  c4_persisted_raw sessionInitial createEnvRawFence ["```tsx\nX\n```".data]
    (by decide) (by decide) rfl

/-- A concrete session stuck in the middle of a creation, used to exercise
the entry guards. -/
def sessionBusy : Session := { sessionInitial with status := Status.creating }

/-- C5, confirmed.  Each network-driving action returns immediately when its
entry guard fails — fresh creation, idea generation and prompt refinement
when the status is not initial, chat refinement when the status is not
created or no code has been generated: no request is issued and the session
is returned unchanged. -/
theorem c5_entry_guards (s t : Session) (cenv : CreateEnv) (ienv renv : AssistEnv)
    (chenv : ChatEnv) (message : Str)
    (hs : s.status ≠ Status.initial)
    (ht : t.status ≠ Status.created ∨ t.generatedCode = []) :
    createApp cenv s = (s, []) ∧
    generateAppIdea ienv s = (s, []) ∧
    refinePrompt renv s = (s, []) ∧
    handleChatMessage chenv message t = (t, []) := by
  refine ⟨?_, ?_, ?_, ?_⟩
  · unfold createApp
    rw [if_pos (Or.inr hs)]
  · unfold generateAppIdea
    rw [if_pos hs]
  · unfold refinePrompt
    rw [if_pos (Or.inr hs)]
  · unfold handleChatMessage
    rw [if_pos (ht.elim Or.inr Or.inl)]

/-- C5, witness: all four actions invoked on a session whose status is
`creating` (which also fails the chat guard) return it unchanged with no
requests. -/
theorem c5_witness :
    createApp createEnvRawFence sessionBusy = (sessionBusy, []) ∧
    generateAppIdea { resp := StreamOutcome.notOk } sessionBusy
      = (sessionBusy, []) ∧
    refinePrompt { resp := StreamOutcome.notOk } sessionBusy
      = (sessionBusy, []) ∧
    handleChatMessage { gen := StreamOutcome.notOk, analytics := none }
      "hi".data sessionBusy = (sessionBusy, []) :=
  c5_entry_guards sessionBusy sessionBusy createEnvRawFence
    { resp := StreamOutcome.notOk } { resp := StreamOutcome.notOk }
    { gen := StreamOutcome.notOk, analytics := none } "hi".data
    (by decide) (Or.inl (by decide))

/-- C6, confirmed.  A fresh-creation run whose stream completes but whose
persistence call answers non-OK throws before the identifier is read: the
run ends at status initial, the stored identifier is whatever it was before
the run, no token-analytics request is ever issued, and the display keeps
the streamed (stripped) code. -/
theorem c6_persist_failure (s : Session) (env : CreateEnv) (chunks : List Str)
    (hs : s.status = Status.initial) (hp : s.prompt ≠ [])
    (hg : env.gen = StreamOutcome.ok chunks) (hsave : env.save = none) :
    (createApp env s).1.status = Status.initial ∧
    (createApp env s).1.currentGeneratedAppId = s.currentGeneratedAppId ∧
    (∀ m p c i, ApiRequest.tokenAnalyticsCall m p c i ∉ (createApp env s).2) ∧
    (createApp env s).1.generatedCode = removeCodeFormatting chunks.flatten := by
  have hguard : ¬ (s.prompt = [] ∨ s.status ≠ Status.initial) := by
    push_neg
    exact ⟨hp, hs⟩
  refine ⟨?_, ?_, fun m p c i => ?_, ?_⟩ <;>
    simp [createApp, if_neg hguard, hg, hsave, runStream_nil_init]

/-- A concrete environment whose persistence call answers non-OK. -/
def createEnvSaveFail : CreateEnv :=
  { gen := StreamOutcome.ok ["```tsx\nX\n```".data]
    save := none
    analytics := none }

/-- C6, witness: the concrete failing-persistence run ends at initial, keeps
the pre-run identifier id0, issues no analytics request, and displays the
stripped stream. -/
theorem c6_witness :
    (createApp createEnvSaveFail sessionInitial).1.status = Status.initial ∧
    (createApp createEnvSaveFail sessionInitial).1.currentGeneratedAppId
      = sessionInitial.currentGeneratedAppId ∧
    (∀ m p c i, ApiRequest.tokenAnalyticsCall m p c i
      ∉ (createApp createEnvSaveFail sessionInitial).2) ∧
    (createApp createEnvSaveFail sessionInitial).1.generatedCode
      = removeCodeFormatting (["```tsx\nX\n```".data] : List Str).flatten :=
  c6_persist_failure sessionInitial createEnvSaveFail ["```tsx\nX\n```".data]
    (by decide) (by decide) rfl rfl

/-- C7, confirmed.  When a chat refinement that passed its guard fails at
any point before its stream completes (a non-OK or body-less response, a
rejected fetch, or a read error mid-stream), the catch block sets the
status back to created, and the refinement history committed in session
state is exactly what it was before the call: the user message appended in
the local list is never committed. -/
theorem c7_chat_failure (s : Session) (env : ChatEnv) (message : Str)
    (hst : s.status = Status.created) (hcode : s.generatedCode ≠ [])
    (hfail : env.gen = StreamOutcome.notOk ∨
      ∃ chunks, env.gen = StreamOutcome.midFail chunks) :
    (handleChatMessage env message s).1.status = Status.created ∧
    (handleChatMessage env message s).1.refinementMessages
      = s.refinementMessages := by
  have hguard : ¬ (s.generatedCode = [] ∨ s.status ≠ Status.created) := by
    push_neg
    exact ⟨hcode, hst⟩
  rcases hfail with h | ⟨chunks, h⟩ <;>
    simp [handleChatMessage, if_neg hguard, h]

/-- A concrete session in the created state with generated code, an
identifier and one committed refinement exchange. -/
def sessionCreated : Session :=
  { sessionInitial with
    status := Status.created
    generatedCode := "old".data
    chatVisible := true
    refinementMessages := [{ role := roleUser, content := "r1".data }] }

/-- C7, witness: a chat refinement on the created session whose stream dies
after one chunk ends at created with the refinement history unchanged. -/
theorem c7_witness :
    (handleChatMessage
        { gen := StreamOutcome.midFail ["par".data], analytics := none }
        "add a button".data sessionCreated).1.status = Status.created ∧
    (handleChatMessage
        { gen := StreamOutcome.midFail ["par".data], analytics := none }
        "add a button".data sessionCreated).1.refinementMessages
      = sessionCreated.refinementMessages :=
  c7_chat_failure sessionCreated
    { gen := StreamOutcome.midFail ["par".data], analytics := none }
    "add a button".data (by decide) (by decide)
    (Or.inr ⟨["par".data], rfl⟩)

/-- C8, confirmed.  Both prompt-assist actions invoked at status initial —
idea generation needs nothing more, since its guard (layout.tsx line 298)
does not inspect the prompt — end at status initial whatever the stream
outcome; on a completed stream each replaces the prompt wholesale with the
trimmed concatenation of the streamed chunks (for prompt refinement under
the non-empty prompt its own guard requires before it acts); on any failure
(non-OK response or mid-stream error) the prompt is left unchanged. -/
theorem c8_prompt_assist (s : Session) (ienv renv : AssistEnv)
    (hst : s.status = Status.initial) :
    ((generateAppIdea ienv s).1.status = Status.initial ∧
     (refinePrompt renv s).1.status = Status.initial) ∧
    (∀ chunks, ienv.resp = StreamOutcome.ok chunks →
      (generateAppIdea ienv s).1.prompt = jsTrim chunks.flatten) ∧
    (∀ chunks, s.prompt ≠ [] → renv.resp = StreamOutcome.ok chunks →
      (refinePrompt renv s).1.prompt = jsTrim chunks.flatten) ∧
    ((ienv.resp = StreamOutcome.notOk ∨
        ∃ cs, ienv.resp = StreamOutcome.midFail cs) →
      (generateAppIdea ienv s).1.prompt = s.prompt) ∧
    ((renv.resp = StreamOutcome.notOk ∨
        ∃ cs, renv.resp = StreamOutcome.midFail cs) →
      (refinePrompt renv s).1.prompt = s.prompt) := by
  have hguardi : ¬ s.status ≠ Status.initial := fun h => h hst
  have hguardr : ∀ hp : s.prompt ≠ [],
      ¬ (s.prompt = [] ∨ s.status ≠ Status.initial) := fun hp => by
    push_neg
    exact ⟨hp, hst⟩
  refine ⟨⟨?_, ?_⟩, ?_, ?_, ?_, ?_⟩
  · rcases hi : ienv.resp with _ | cs | cs <;>
      simp [generateAppIdea, if_neg hguardi, hi]
  · by_cases hp : s.prompt = []
    · simp [refinePrompt, hp, hst]
    · rcases hr : renv.resp with _ | cs | cs <;>
        simp [refinePrompt, if_neg (hguardr hp), hr]
  · intro chunks hi
    simp [generateAppIdea, if_neg hguardi, hi]
  · intro chunks hp hr
    simp [refinePrompt, if_neg (hguardr hp), hr]
  · rintro (hi | ⟨cs, hi⟩) <;> simp [generateAppIdea, if_neg hguardi, hi]
  · by_cases hp : s.prompt = []
    · intro _
      simp [refinePrompt, hp]
    · rintro (hr | ⟨cs, hr⟩) <;> simp [refinePrompt, if_neg (hguardr hp), hr]

/-- A concrete initial session whose prompt is still empty, as at the start
of a visit: idea generation may be invoked on it, while prompt refinement's
own guard makes refinement a no-op there. -/
def sessionEmptyPrompt : Session := { sessionInitial with prompt := [] }

/-- C8, witness: on the concrete initial session with an empty prompt, a
completed idea stream replaces the prompt with its trimmed text and a
failed refinement stream leaves the prompt unchanged, both ending at
initial. -/
theorem c8_witness :
    ((generateAppIdea { resp := StreamOutcome.ok ["  an idea \n".data] }
        sessionEmptyPrompt).1.status = Status.initial ∧
     (refinePrompt { resp := StreamOutcome.notOk }
        sessionEmptyPrompt).1.status = Status.initial) ∧
    (∀ chunks,
      ({ resp := StreamOutcome.ok ["  an idea \n".data] } : AssistEnv).resp
          = StreamOutcome.ok chunks →
      (generateAppIdea { resp := StreamOutcome.ok ["  an idea \n".data] }
          sessionEmptyPrompt).1.prompt = jsTrim chunks.flatten) ∧
    (∀ chunks, sessionEmptyPrompt.prompt ≠ [] →
      ({ resp := StreamOutcome.notOk } : AssistEnv).resp
          = StreamOutcome.ok chunks →
      (refinePrompt { resp := StreamOutcome.notOk }
          sessionEmptyPrompt).1.prompt = jsTrim chunks.flatten) ∧
    ((({ resp := StreamOutcome.ok ["  an idea \n".data] } : AssistEnv).resp
          = StreamOutcome.notOk ∨
        ∃ cs, ({ resp := StreamOutcome.ok ["  an idea \n".data] } : AssistEnv).resp
          = StreamOutcome.midFail cs) →
      (generateAppIdea { resp := StreamOutcome.ok ["  an idea \n".data] }
          sessionEmptyPrompt).1.prompt = sessionEmptyPrompt.prompt) ∧
    ((({ resp := StreamOutcome.notOk } : AssistEnv).resp = StreamOutcome.notOk ∨
        ∃ cs, ({ resp := StreamOutcome.notOk } : AssistEnv).resp
          = StreamOutcome.midFail cs) →
      (refinePrompt { resp := StreamOutcome.notOk }
          sessionEmptyPrompt).1.prompt = sessionEmptyPrompt.prompt) :=
  c8_prompt_assist sessionEmptyPrompt
    { resp := StreamOutcome.ok ["  an idea \n".data] }
    { resp := StreamOutcome.notOk } (by decide)

/-- C9, confirmed.  The reset step of a fresh creation clears the code
buffer, the analytics display flag, the cumulative analytics, the chat
visibility and the refinement history, but no step of the run ever clears
`currentGeneratedAppId` on failure: when the run fails (non-OK generation
response, mid-stream error, or non-OK persistence), the identifier from an
earlier successful run is still set afterwards, the cleared fields are
still cleared, and when the failure happened before any chunk arrived the
code buffer is still empty. -/
theorem c9_stale_id (s : Session) (env : CreateEnv) (appId : Str)
    (hs : s.status = Status.initial) (hp : s.prompt ≠ [])
    (hid : s.currentGeneratedAppId = some appId)
    (hfail : env.gen = StreamOutcome.notOk ∨
      (∃ cs, env.gen = StreamOutcome.midFail cs) ∨ env.save = none) :
    (createApp env s).1.currentGeneratedAppId = some appId ∧
    (createApp env s).1.refinementMessages = [] ∧
    (createApp env s).1.chatVisible = false ∧
    (createApp env s).1.tokenAnalytics = none ∧
    (createApp env s).1.showAnalytics = false ∧
    (env.gen = StreamOutcome.notOk → (createApp env s).1.generatedCode = []) := by
  have hguard : ¬ (s.prompt = [] ∨ s.status ≠ Status.initial) := by
    push_neg
    exact ⟨hp, hs⟩
  rcases hgen : env.gen with _ | cs | cs
  · simp [createApp, if_neg hguard, hgen, hid]
  · simp [createApp, if_neg hguard, hgen, hid]
  · have hsave : env.save = none := by
      rcases hfail with h | ⟨cs2, h⟩ | h
      · rw [hgen] at h
        exact absurd h (by simp)
      · rw [hgen] at h
        exact absurd h (by simp)
      · exact h
    simp [createApp, if_neg hguard, hgen, hsave, hid]

/-- C9, witness: the concrete failing-persistence run keeps the stale
identifier id0 while the reset-cleared fields stay cleared. -/
theorem c9_witness :
    (createApp createEnvSaveFail sessionInitial).1.currentGeneratedAppId
      = some "id0".data ∧
    (createApp createEnvSaveFail sessionInitial).1.refinementMessages = [] ∧
    (createApp createEnvSaveFail sessionInitial).1.chatVisible = false ∧
    (createApp createEnvSaveFail sessionInitial).1.tokenAnalytics = none ∧
    (createApp createEnvSaveFail sessionInitial).1.showAnalytics = false ∧
    (createEnvSaveFail.gen = StreamOutcome.notOk →
      (createApp createEnvSaveFail sessionInitial).1.generatedCode = []) :=
  c9_stale_id sessionInitial createEnvSaveFail "id0".data (by decide)
    (by decide) rfl (Or.inr (Or.inr rfl))

/-- C10, confirmed.  Loading a saved generation checks no entry guard: for
every session (any status, including creating and updating) it sets status
to created, replaces the displayed code, prompt, model and persisted
identifier with the saved record's values, shows the chat interface, and
leaves the AI settings — as well as the analytics, error, conversation and
refinement-history fields — unchanged. -/
theorem c10_load_generation (s : Session) (g : SavedGeneration) :
    (handleLoadGeneration g s).status = Status.created ∧
    (handleLoadGeneration g s).generatedCode = g.generatedApp.code ∧
    (handleLoadGeneration g s).prompt = g.generatedApp.prompt ∧
    (handleLoadGeneration g s).model = g.generatedApp.model ∧
    (handleLoadGeneration g s).currentGeneratedAppId
      = some g.generatedApp.id ∧
    (handleLoadGeneration g s).chatVisible = true ∧
    (handleLoadGeneration g s).aiSettings = s.aiSettings ∧
    (handleLoadGeneration g s).tokenAnalytics = s.tokenAnalytics ∧
    (handleLoadGeneration g s).showAnalytics = s.showAnalytics ∧
    (handleLoadGeneration g s).runtimeError = s.runtimeError ∧
    (handleLoadGeneration g s).messages = s.messages ∧
    (handleLoadGeneration g s).refinementMessages = s.refinementMessages :=
  ⟨rfl, rfl, rfl, rfl, rfl, rfl, rfl, rfl, rfl, rfl, rfl, rfl⟩
